import Mathlib

/-
Verification of the recipe-extraction pipeline in src/main.py.

The program is embedded shallowly: every external effect (the Gemini API,
yt-dlp downloads, the local filesystem, Telegram sends and replies) is
represented by an explicit environment `Env` describing the outcome of each
external call, and `process_url` is a pure function from that environment to
the observable run result (replies sent, language-model operations invoked,
media send attempts, the computed final recipe text, and the final
filesystem state).

Python strings are sequences of Unicode code points; they are modelled by
Lean `String` (whose logical model is `List Char`), with `len` as
`String.length` and slicing `s[:n]` as `pySliceTo`.
-/

/-- Python truthiness of an optional string: `None` and `""` are falsy. -/
def truthy : Option String → Bool
  | none => false
  | some s => !s.isEmpty

/-- Python `x or y` where `x` is an optional string and `y` a string:
returns `x` when it is truthy, otherwise `y`. -/
def pyOr (x : Option String) (y : String) : String :=
  match x with
  | none => y
  | some s => if s.isEmpty then y else s

/-- Python slice `s[:n]`: the first `n` code points of `s`. -/
def pySliceTo (s : String) (n : Nat) : String := ⟨s.data.take n⟩

/-- The model of the filesystem: the list of paths that currently exist. -/
abbrev FileSys := List String

/-- `os.remove`: every entry for the removed path disappears. -/
def os_remove (fs : FileSys) (p : String) : FileSys :=
  fs.filter (fun q => !(q == p))

/-- `os.path.exists`. -/
def os_path_exists (fs : FileSys) (p : String) : Bool := fs.contains p

/-- The dataclass `Video` of src/main.py. `filepath` is assigned in
`__post_init__`; the metadata fields start out unset. -/
structure Video where
  url : String
  chat_id : Int
  filepath : String
  width : Option Int := none
  height : Option Int := none
  duration : Option Int := none
  description : Option String := none
  vformat : String := "mp4"

/-- Constructing a `Video`, including its `__post_init__`:
`filepath = f"video_{chat_id}_{int(time.time())}.mp4"`. -/
def mkVideo (url : String) (chat_id : Int) (now : Nat) : Video :=
  { url := url, chat_id := chat_id
    filepath := "video_" ++ toString chat_id ++ "_" ++ toString now ++ ".mp4" }

/-- The dataclass `Audio` of src/main.py, including its `__post_init__`:
`filepath = f"audio_{chat_id}_{int(time.time())}.mp3"`. -/
structure Audio where
  url : String
  chat_id : Int
  filepath : String

/-- Constructing an `Audio` with its `__post_init__` path. -/
def mkAudio (url : String) (chat_id : Int) (now : Nat) : Audio :=
  { url := url, chat_id := chat_id
    filepath := "audio_" ++ toString chat_id ++ "_" ++ toString now ++ ".mp3" }

/-- Outcome dictionary of the download helpers: `{"status": ...}`. -/
inductive DlStatus where
  | success
  | failed
deriving Repr, DecidableEq

/-- The environment fixing the outcome of every external call made during
one `process_url` run. A `none` result of `generate` / `generateWithAudio`
models the Gemini call raising an exception; `some t` models a normal
return with `response.text = t`. -/
structure Env where
  /-- `os.environ.get("GOOGLE_API_KEY")`. -/
  apiKey : Option String
  /-- `model.generate_content(prompt).text` for a textual prompt. -/
  generate : String → Option String
  /-- `model.generate_content([prompt, audio_file]).text`. -/
  generateWithAudio : String → String → Option String
  /-- whether `genai.upload_file` (or the polling) raises. -/
  uploadRaises : Bool
  /-- `audio_file.state.name` once the polling loop has left PROCESSING. -/
  uploadFinalState : String
  /-- whether `ydl.extract_info(url, download=True)` succeeds for the video. -/
  videoDownloadOk : Bool
  /-- `video_info.get("width")`. -/
  videoWidth : Option Int
  /-- `video_info.get("height")`. -/
  videoHeight : Option Int
  /-- `video_info.get("duration")`. -/
  videoDuration : Option Int
  /-- `video_info.get("description")`. -/
  videoDescription : Option String
  /-- whether a file exists at the video target path after the attempt. -/
  videoFileWritten : Bool
  /-- whether `ydl.download([audio.url])` raises. -/
  audioRaises : Bool
  /-- whether a file exists at the audio target path after the attempt. -/
  audioFileWritten : Bool
  /-- byte size of the downloaded video file. -/
  videoSize : Nat
  /-- whether `bot.send_video` with the MarkdownV2 caption succeeds. -/
  sendFormattedOk : Bool
  /-- whether the plain-caption `bot.send_video` retry succeeds. -/
  sendPlainOk : Bool
  /-- exception text when the plain-caption retry raises. -/
  sendError : String

/-- The prompt built by `refine_with_gemini`. -/
def refinePrompt (text_to_refine : String) : String :=
  "You are a helpful assistant that specializes in formatting recipes. "
    ++ "The following text was extracted from an Instagram video description. "
    ++ "Please format it into a clear, easy-to-read recipe with a title, "
    ++ "a list of ingredients, and numbered instructions. If the text does not "
    ++ "appear to be a recipe, just return the original text."
    ++ "\n\n---\n\n"
    ++ text_to_refine

/-- `refine_with_gemini` of src/main.py: returns `None` when the key is
missing or the API call raises, otherwise the generated text. -/
def refine_with_gemini (env : Env) (text_to_refine : String) : Option String :=
  match env.apiKey with
  | none => none
  | some _ => env.generate (refinePrompt text_to_refine)

/-- The prompt built by `convert_recipe_to_metric`. -/
def convertPrompt (recipe_text : String) : String :=
  "You are a helpful assistant that specializes in converting recipe measurements. "
    ++ "The following recipe uses imperial units. Please convert all volume and weight "
    ++ "measurements (e.g., oz, lb, cups, tbsp, tsp) to grams. "
    ++ "Keep the original structure and instructions. If a measurement cannot be "
    ++ "converted to grams (e.g., \x271 large egg\x27, \x27a pinch of salt\x27), leave it as is. "
    ++ "Return only the converted recipe."
    ++ "\n\n---\n\n"
    ++ recipe_text

/-- `convert_recipe_to_metric` of src/main.py: note that a missing API key
returns a sentinel string, while an API exception returns `None`. -/
def convert_recipe_to_metric (env : Env) (recipe_text : String) : Option String :=
  match env.apiKey with
  | none => some "API key not found, cannot convert to metric."
  | some _ => env.generate (convertPrompt recipe_text)

/-- The prompt built by `analyze_audio_with_gemini`. -/
def analyzePrompt : String :=
  "Listen to the audio from this cooking video. Transcribe any spoken instructions, tips, "
    ++ "or steps that are relevant to the recipe. Ignore background music or irrelevant chatter. "
    ++ "If there are no spoken instructions, please state that clearly. "
    ++ "Present the instructions as a clear list."

/-- `analyze_audio_with_gemini` of src/main.py: a missing API key returns a
sentinel string; an upload exception or a FAILED processing state returns
`None`; otherwise the generation result. -/
def analyze_audio_with_gemini (env : Env) (audio_file_path : String) : Option String :=
  match env.apiKey with
  | none => some "API key not found, cannot analyze audio."
  | some _ =>
    if env.uploadRaises then none
    else if env.uploadFinalState = "FAILED" then none
    else env.generateWithAudio analyzePrompt audio_file_path

/-- The prompt built by `combine_recipe_and_audio`. -/
def combinePrompt (metric_recipe audio_notes : String) : String :=
  "You are a master recipe editor. Below is a recipe generated from a video\x27s description text, "
    ++ "and a set of notes transcribed from the video\x27s audio. Your task is to create one final, "
    ++ "comprehensive recipe by intelligently merging the audio notes into the recipe instructions."
    ++ "The final recipe should be logical, easy to follow, and complete. Remove unneccesary information (i.e. comment calls, etc.)."
    ++ "\n\n--- RECIPE FROM TEXT ---\n"
    ++ metric_recipe
    ++ "\n\n--- NOTES FROM AUDIO ---\n"
    ++ audio_notes
    ++ "\n\n--- FINAL COMPREHENSIVE RECIPE ---"

/-- `combine_recipe_and_audio` of src/main.py: a missing API key returns a
sentinel string; an API exception returns `None`. -/
def combine_recipe_and_audio (env : Env) (metric_recipe audio_notes : String) : Option String :=
  match env.apiKey with
  | none => some "API key not found, cannot combine recipe."
  | some _ => env.generate (combinePrompt metric_recipe audio_notes)

/-- `download_video` of src/main.py: on success the metadata fields are
populated from the extracted info; the download attempt may leave a file at
the target path in either case. -/
def download_video (env : Env) (video : Video) (fs : FileSys) :
    Video × FileSys × DlStatus :=
  let fs1 := if env.videoFileWritten then video.filepath :: fs else fs
  if env.videoDownloadOk then
    ({ video with
        width := env.videoWidth
        height := env.videoHeight
        duration := env.videoDuration
        description := env.videoDescription }, fs1, .success)
  else (video, fs1, .failed)

/-- `download_audio` of src/main.py: when `ydl.download` raises, the result
is `failed`; when it returns, the result is `success` if and only if a file
exists at `audio.filepath` afterwards. -/
def download_audio (env : Env) (audio : Audio) (fs : FileSys) :
    FileSys × DlStatus :=
  let fs1 := if env.audioFileWritten then audio.filepath :: fs else fs
  if env.audioRaises then (fs1, .failed)
  else if os_path_exists fs1 audio.filepath then (fs1, .success)
  else (fs1, .failed)

/-- The truncation marker appended by `process_url`. -/
def truncationMarker : String := "\n...(truncated)"

/-- The caption body: `caption_text` after the truncation step of
`process_url` (`max_len = 1024`, `overhead = 7`). Truncation fires only when
the unwrapped text is longer than 1024 code points. -/
def caption_inner (final_recipe_text : String) : String :=
  let max_len := 1024
  let overhead := 7
  if final_recipe_text.length > max_len then
    pySliceTo final_recipe_text (max_len - overhead - truncationMarker.length)
      ++ truncationMarker
  else final_recipe_text

/-- `final_caption = f"```{caption_text}```"` of `process_url`. -/
def build_caption (final_recipe_text : String) : String :=
  "```" ++ caption_inner final_recipe_text ++ "```"

/-- One `bot.send_video` attempt: the caption, the parse mode, the file
position from which the video handle is read, and the metadata passed. -/
structure Send where
  chat_id : Int
  startPos : Nat
  caption : String
  parse_mode : Option String
  width : Option Int
  height : Option Int
  duration : Option Int
deriving Repr, DecidableEq

/-- Observable outcome of the `try` body of `process_url`, before the
`except` handler and the `finally` cleanup are applied. -/
structure BodyResult where
  replies : List String
  llmOps : List String
  sends : List Send
  finalRecipe : Option String
  fs : FileSys
  raised : Option String

/-- Step 3 of `process_url` ("Send the final results"): when the video file
still exists, build the caption, attempt the MarkdownV2 send and, if it
raises, seek the file handle back to 0 and retry with the plain caption; a
failure of the retry raises out of the `try` body. -/
def assembleAndSend (env : Env) (video : Video) (replies llmOps : List String)
    (final_recipe_text : String) (fs : FileSys) : BodyResult :=
  if os_path_exists fs video.filepath then
    let final_caption := build_caption final_recipe_text
    let pos : Nat := 0
    let s1 : Send :=
      { chat_id := video.chat_id, startPos := pos, caption := final_caption
        parse_mode := some "MarkdownV2", width := video.width
        height := video.height, duration := video.duration }
    let pos := env.videoSize
    if env.sendFormattedOk then
      { replies := replies, llmOps := llmOps, sends := [s1]
        finalRecipe := some final_recipe_text, fs := fs, raised := none }
    else
      let pos := 0
      let s2 : Send :=
        { chat_id := video.chat_id, startPos := pos
          caption := final_recipe_text, parse_mode := none
          width := video.width, height := video.height
          duration := video.duration }
      if env.sendPlainOk then
        { replies := replies, llmOps := llmOps, sends := [s1, s2]
          finalRecipe := some final_recipe_text, fs := fs, raised := none }
      else
        { replies := replies, llmOps := llmOps, sends := [s1, s2]
          finalRecipe := some final_recipe_text, fs := fs
          raised := some env.sendError }
  else
    { replies := replies, llmOps := llmOps, sends := []
      finalRecipe := some final_recipe_text, fs := fs, raised := none }

/-- The optional audio stage of `process_url`: when the audio download
succeeded, analyze the audio and, when both the notes and the merge result
are truthy, replace the final recipe text by the merged recipe. Returns the
updated list of invoked operations and the final recipe text. -/
def audioStage (env : Env) (audio : Audio) (llmOps : List String)
    (metric_recipe : String) (audio_download_status : DlStatus) :
    List String × String :=
  if audio_download_status = .success then
    let audio_notes := analyze_audio_with_gemini env audio.filepath
    let llmOps := llmOps ++ ["analyze_audio_with_gemini"]
    if truthy audio_notes then
      let combined_recipe :=
        combine_recipe_and_audio env metric_recipe (audio_notes.getD "")
      let llmOps := llmOps ++ ["combine_recipe_and_audio"]
      if truthy combined_recipe then (llmOps, combined_recipe.getD "")
      else (llmOps, metric_recipe)
    else (llmOps, metric_recipe)
  else (llmOps, metric_recipe)

/-- The `try` body of `process_url`: download, refine, convert, optional
audio analysis and merge, caption assembly and the send attempts. -/
def processBody (env : Env) (video : Video) (audio : Audio) (fs0 : FileSys) :
    BodyResult :=
  let replies := ["🔎 Fetching video info and downloading..."]
  let dl := download_video env video fs0
  let video := dl.1
  let fs := dl.2.1
  if dl.2.2 = .failed then
    { replies := replies ++ ["❌ Could not download the video."]
      llmOps := [], sends := [], finalRecipe := none, fs := fs, raised := none }
  else if !truthy video.description then
    { replies := replies ++ ["❌ Could not fetch a description from the link."]
      llmOps := [], sends := [], finalRecipe := none, fs := fs, raised := none }
  else
    let replies := replies ++ ["✨ Refining, converting, and analyzing audio..."]
    let refined_recipe := refine_with_gemini env (video.description.getD "")
    let llmOps := ["refine_with_gemini"]
    if !truthy refined_recipe then
      { replies := replies ++ ["❌ An error occurred while refining the recipe."]
        llmOps := llmOps, sends := [], finalRecipe := none, fs := fs, raised := none }
    else
      let refined := refined_recipe.getD ""
      let metric_recipe := pyOr (convert_recipe_to_metric env refined) refined
      let llmOps := llmOps ++ ["convert_recipe_to_metric"]
      let adl := download_audio env audio fs
      let fs := adl.1
      let audio_download_status := adl.2
      let step := audioStage env audio llmOps metric_recipe audio_download_status
      assembleAndSend env video replies step.1 step.2 fs

/-- The run result of `process_url` after the `except` handler (which
appends the unexpected-error reply) and the `finally` cleanup (which removes
the video and audio files when they exist). -/
structure RunResult where
  replies : List String
  llmOps : List String
  sends : List Send
  finalRecipe : Option String
  fs : FileSys

/-- `process_url` of src/main.py as a pure function of the environment. -/
def process_url (env : Env) (url : String) (chat_id : Int) (now : Nat)
    (fs0 : FileSys) : RunResult :=
  let video := mkVideo url chat_id now
  let audio := mkAudio url chat_id now
  let b := processBody env video audio fs0
  let replies :=
    match b.raised with
    | none => b.replies
    | some e => b.replies ++ ["An unexpected error occurred: " ++ e]
  let fs1 := if os_path_exists b.fs video.filepath then os_remove b.fs video.filepath else b.fs
  let fs2 := if os_path_exists fs1 audio.filepath then os_remove fs1 audio.filepath else fs1
  { replies := replies, llmOps := b.llmOps, sends := b.sends
    finalRecipe := b.finalRecipe, fs := fs2 }

/-- A reply that reports a failure to the user: the hard-failure replies all
start with the cross mark, the top-level handler reply with a fixed text. -/
def isFailureReply (s : String) : Bool :=
  "❌".data.isPrefixOf s.data || "An unexpected error occurred".data.isPrefixOf s.data

/- ### Helper lemmas about the caption assembly -/

lemma length_pySliceTo (s : String) (n : Nat) :
    (pySliceTo s n).length = min n s.length := by
  show (s.data.take n).length = min n s.data.length
  exact List.length_take n s.data

lemma length_truncationMarker : truncationMarker.length = 15 := rfl

lemma caption_inner_of_long (t : String) (h : t.length > 1024) :
    caption_inner t = pySliceTo t 1002 ++ truncationMarker := by
  simp [caption_inner, h, length_truncationMarker]

lemma caption_inner_length_of_long (t : String) (h : t.length > 1024) :
    (caption_inner t).length = 1017 := by
  rw [caption_inner_of_long t h]
  rw [String.length_append, length_pySliceTo, length_truncationMarker]
  omega

lemma build_caption_length_of_long (t : String) (h : t.length > 1024) :
    (build_caption t).length = 1023 := by
  rw [build_caption, String.length_append, String.length_append,
    caption_inner_length_of_long t h]
  decide

/-- C5: a recipe text strictly longer than the 1024-unit limit yields a
caption of literal length at most 1024 whose inner content ends with the
truncation marker `"...(truncated)"`. -/
theorem c5_long_text_truncated (t : String) (h : t.length > 1024) :
    (build_caption t).length ≤ 1024
      ∧ ∃ pre, caption_inner t = pre ++ "...(truncated)" := by
  refine ⟨by rw [build_caption_length_of_long t h]; omega, ?_⟩
  refine ⟨pySliceTo t 1002 ++ "\n", ?_⟩
  rw [caption_inner_of_long t h, String.append_assoc]
  rfl

/-- A 1030-character recipe text, used to evaluate the caption theorems. -/
def t1030 : String := String.mk (List.replicate 1030 'a')

lemma t1030_length : t1030.length = 1030 := by
  show (List.replicate 1030 'a').length = 1030
  exact List.length_replicate 1030 'a'

/-- Witness for C5 at a concrete 1030-character text. -/
theorem c5_witness :
    t1030.length > 1024
      ∧ ((build_caption t1030).length ≤ 1024
        ∧ ∃ pre, caption_inner t1030 = pre ++ "...(truncated)") :=
  ⟨by rw [t1030_length]; omega,
    c5_long_text_truncated t1030 (by rw [t1030_length]; omega)⟩

/-- A 1020-character recipe text: wrapping it in the markers exceeds the
1024-unit limit, yet the code does not truncate it. -/
def t1020 : String := String.mk (List.replicate 1020 'a')

lemma t1020_length : t1020.length = 1020 := by
  show (List.replicate 1020 'a').length = 1020
  exact List.length_replicate 1020 'a'

/-- Counterexample to C2: for a 1020-character text the wrapped caption
would exceed 1024 units, but no truncation happens and the assembled
caption itself exceeds 1024 units. -/
theorem c2_counterexample :
    ("```" ++ t1020 ++ "```").length > 1024
      ∧ build_caption t1020 = "```" ++ t1020 ++ "```"
      ∧ (build_caption t1020).length > 1024 := by
  have hw : ("```" ++ t1020 ++ "```").length = 1026 := by
    rw [String.length_append, String.length_append, t1020_length]
    decide
  have hin : caption_inner t1020 = t1020 := by
    simp only [caption_inner, t1020_length]
    norm_num
  have hnotrunc : build_caption t1020 = "```" ++ t1020 ++ "```" := by
    rw [build_caption, hin]
  refine ⟨by omega, hnotrunc, by rw [hnotrunc]; omega⟩

/-- C2 as amended: truncation is keyed on the unwrapped text exceeding 1024
units (not on the wrapped caption exceeding it); in that case the inner text
is cut, the markers are kept intact, and the re-wrapped caption including
the truncation marker fits within 1024 units. -/
theorem c2_amended (t : String) (h : t.length > 1024) :
    build_caption t = "```" ++ (pySliceTo t 1002 ++ truncationMarker) ++ "```"
      ∧ (build_caption t).length ≤ 1024 := by
  refine ⟨?_, by rw [build_caption_length_of_long t h]; omega⟩
  rw [build_caption, caption_inner_of_long t h]

/-- Witness for the amended C2 at a concrete 1030-character text. -/
theorem c2_witness :
    t1030.length > 1024
      ∧ (build_caption t1030
          = "```" ++ (pySliceTo t1030 1002 ++ truncationMarker) ++ "```"
        ∧ (build_caption t1030).length ≤ 1024) :=
  ⟨by rw [t1030_length]; omega, c2_amended t1030 (by rw [t1030_length]; omega)⟩

/- ### Concrete environments used by witnesses and counterexamples -/

/-- An environment where the video download succeeds with a non-empty
description, the API key is configured, and every Gemini call raises. -/
def envAllFail : Env :=
  { apiKey := some "k"
    generate := fun _ => none
    generateWithAudio := fun _ _ => none
    uploadRaises := true
    uploadFinalState := "FAILED"
    videoDownloadOk := true
    videoWidth := some 640
    videoHeight := some 360
    videoDuration := some 10
    videoDescription := some "2 cups flour, 1 lb butter"
    videoFileWritten := true
    audioRaises := true
    audioFileWritten := false
    videoSize := 100
    sendFormattedOk := true
    sendPlainOk := true
    sendError := "" }

/-- The same environment with the GOOGLE_API_KEY variable not set. -/
def envNoKey : Env := { envAllFail with apiKey := none }

/-- An environment where the audio download tool raises although a usable
file was produced at the target path. -/
def envAudioRaisesButFile : Env :=
  { envAllFail with audioRaises := true, audioFileWritten := true }

/-- An environment where the audio download tool returns normally and a
file exists at the target path. -/
def envAudioOk : Env :=
  { envAllFail with audioRaises := false, audioFileWritten := true }

/- ### C9: success criterion of download_audio -/

/-- Counterexample to C9: when `ydl.download` raises while a file does
exist at the target path afterwards, `download_audio` reports `failed`, so
success is not independent of whether the tool raised. -/
theorem c9_counterexample :
    (download_audio envAudioRaisesButFile (mkAudio "u" 1 0) []).2 = DlStatus.failed
      ∧ os_path_exists (download_audio envAudioRaisesButFile (mkAudio "u" 1 0) []).1
          (mkAudio "u" 1 0).filepath = true :=
  ⟨rfl, rfl⟩

/-- C9 as amended: when the download call returns without raising, success
is reported if and only if a file exists at the target path afterwards;
when the call raises, the result is `failed` regardless of the file. -/
theorem c9_amended (env : Env) (audio : Audio) (fs : FileSys) :
    (env.audioRaises = false →
      ((download_audio env audio fs).2 = DlStatus.success
        ↔ os_path_exists (download_audio env audio fs).1 audio.filepath = true))
    ∧ (env.audioRaises = true →
      (download_audio env audio fs).2 = DlStatus.failed) := by
  constructor
  · intro h
    cases hex : os_path_exists
        (if env.audioFileWritten then audio.filepath :: fs else fs) audio.filepath
    · simp [download_audio, h, hex]
    · simp [download_audio, h, hex]
  · intro h
    simp [download_audio, h]

/-- Witness for the amended C9 at a concrete non-raising environment. -/
theorem c9_witness :
    envAudioOk.audioRaises = false
      ∧ ((download_audio envAudioOk (mkAudio "u" 1 0) []).2 = DlStatus.success
        ↔ os_path_exists (download_audio envAudioOk (mkAudio "u" 1 0) []).1
            (mkAudio "u" 1 0).filepath = true) :=
  ⟨rfl, (c9_amended envAudioOk (mkAudio "u" 1 0) []).1 rfl⟩

/- ### C3: failure results of the four Gemini operations -/

/-- Counterexample to C3: on a credential failure (missing API key) three
of the four operations return a sentinel string, not null. -/
theorem c3_counterexample :
    convert_recipe_to_metric envNoKey "2 cups flour, 1 lb butter"
        = some "API key not found, cannot convert to metric."
      ∧ analyze_audio_with_gemini envNoKey "audio_1_0.mp3"
        = some "API key not found, cannot analyze audio."
      ∧ combine_recipe_and_audio envNoKey "recipe" "notes"
        = some "API key not found, cannot combine recipe." :=
  ⟨rfl, rfl, rfl⟩

/-- C3 as amended: each operation returns null when the remote call fails
(exception in the API call, upload, or a FAILED processing state); on a
missing credential, `refine_with_gemini` returns null while the other three
return fixed sentinel strings instead. -/
theorem c3_amended (env envNK : Env) (t m n p k : String)
    (hk : env.apiKey = some k)
    (hg : ∀ q, env.generate q = none)
    (hga : ∀ q f, env.generateWithAudio q f = none)
    (hnk : envNK.apiKey = none) :
    (refine_with_gemini env t = none
      ∧ convert_recipe_to_metric env t = none
      ∧ analyze_audio_with_gemini env p = none
      ∧ combine_recipe_and_audio env m n = none)
    ∧ (refine_with_gemini envNK t = none
      ∧ convert_recipe_to_metric envNK t
          = some "API key not found, cannot convert to metric."
      ∧ analyze_audio_with_gemini envNK p
          = some "API key not found, cannot analyze audio."
      ∧ combine_recipe_and_audio envNK m n
          = some "API key not found, cannot combine recipe.") := by
  refine ⟨⟨?_, ?_, ?_, ?_⟩, ?_, ?_, ?_, ?_⟩ <;>
    simp only [refine_with_gemini, convert_recipe_to_metric,
      analyze_audio_with_gemini, combine_recipe_and_audio, hk, hnk, hg, hga]
  split
  · rfl
  · split <;> rfl

/-- Witness for the amended C3 at the concrete environments. -/
theorem c3_witness :
    envAllFail.apiKey = some "k"
      ∧ envNoKey.apiKey = none
      ∧ ((refine_with_gemini envAllFail "t" = none
          ∧ convert_recipe_to_metric envAllFail "t" = none
          ∧ analyze_audio_with_gemini envAllFail "p" = none
          ∧ combine_recipe_and_audio envAllFail "m" "n" = none)
        ∧ (refine_with_gemini envNoKey "t" = none
          ∧ convert_recipe_to_metric envNoKey "t"
              = some "API key not found, cannot convert to metric."
          ∧ analyze_audio_with_gemini envNoKey "p"
              = some "API key not found, cannot analyze audio."
          ∧ combine_recipe_and_audio envNoKey "m" "n"
              = some "API key not found, cannot combine recipe.")) :=
  ⟨rfl, rfl,
    c3_amended envAllFail envNoKey "t" "m" "n" "p" "k" rfl (fun _ => rfl)
      (fun _ _ => rfl) rfl⟩

/- ### Filesystem lemmas for the cleanup property -/

lemma os_path_exists_os_remove_self (fs : FileSys) (p : String) :
    os_path_exists (os_remove fs p) p = false := by
  simp [os_path_exists, os_remove, List.contains, List.mem_filter]

lemma os_path_exists_os_remove_of_false (fs : FileSys) (p q : String)
    (h : os_path_exists fs p = false) :
    os_path_exists (os_remove fs q) p = false := by
  simp [os_path_exists, os_remove, List.contains, List.mem_filter] at h ⊢
  intro hmem
  exact absurd hmem h

lemma os_path_exists_condRemove_self (fs : FileSys) (p : String) :
    os_path_exists (if os_path_exists fs p then os_remove fs p else fs) p
      = false := by
  split
  · exact os_path_exists_os_remove_self fs p
  · next h => exact Bool.not_eq_true _ ▸ Bool.of_not_eq_true h

lemma os_path_exists_condRemove_of_false (fs : FileSys) (p q : String)
    (h : os_path_exists fs p = false) :
    os_path_exists (if os_path_exists fs q then os_remove fs q else fs) p
      = false := by
  split
  · exact os_path_exists_os_remove_of_false fs p q h
  · exact h

/-- C4: after every run of `process_url`, whatever the environment did,
neither the video file path nor the audio file path exists any more. -/
theorem c4_cleanup (env : Env) (url : String) (chat_id : Int) (now : Nat)
    (fs0 : FileSys) :
    os_path_exists (process_url env url chat_id now fs0).fs
        (mkVideo url chat_id now).filepath = false
      ∧ os_path_exists (process_url env url chat_id now fs0).fs
        (mkAudio url chat_id now).filepath = false := by
  constructor
  · simp only [process_url]
    exact os_path_exists_condRemove_of_false _ _ _
      (os_path_exists_condRemove_self _ _)
  · simp only [process_url]
    exact os_path_exists_condRemove_self _ _

/- ### Pipeline characterization lemmas -/

lemma processBody_video_fail (env : Env) (video : Video) (audio : Audio)
    (fs0 : FileSys) (h : env.videoDownloadOk = false) :
    processBody env video audio fs0 =
      { replies := ["🔎 Fetching video info and downloading...",
                    "❌ Could not download the video."]
        llmOps := [], sends := [], finalRecipe := none
        fs := if env.videoFileWritten then video.filepath :: fs0 else fs0
        raised := none } := by
  simp [processBody, download_video, h]

lemma refine_none_of_generate_none (env : Env) (t : String)
    (hg : ∀ p, env.generate p = none) :
    refine_with_gemini env t = none := by
  unfold refine_with_gemini
  cases env.apiKey <;> simp [hg]

lemma processBody_refine_fail (env : Env) (video : Video) (audio : Audio)
    (fs0 : FileSys)
    (hvid : env.videoDownloadOk = true)
    (hdesc : truthy env.videoDescription = true)
    (href : refine_with_gemini env (env.videoDescription.getD "") = none) :
    processBody env video audio fs0 =
      { replies := ["🔎 Fetching video info and downloading...",
                    "✨ Refining, converting, and analyzing audio...",
                    "❌ An error occurred while refining the recipe."]
        llmOps := ["refine_with_gemini"], sends := [], finalRecipe := none
        fs := if env.videoFileWritten then video.filepath :: fs0 else fs0
        raised := none } := by
  cases hde : env.videoDescription with
  | none => rw [hde] at hdesc; exact absurd hdesc (by simp [truthy])
  | some d =>
    rw [hde] at hdesc href
    simp only [truthy] at hdesc
    simp only [Option.getD_some] at href
    simp [processBody, download_video, hvid, hde, truthy, hdesc, href]

/- ### C7: failing video download -/

/-- C7: when the video download fails, no language-model operation is
invoked, nothing is sent, and exactly one failure reply is produced. -/
theorem c7_video_download_fail (env : Env) (url : String) (chat_id : Int)
    (now : Nat) (fs0 : FileSys) (h : env.videoDownloadOk = false) :
    (process_url env url chat_id now fs0).llmOps = []
      ∧ (process_url env url chat_id now fs0).sends = []
      ∧ (process_url env url chat_id now fs0).replies
          = ["🔎 Fetching video info and downloading...",
             "❌ Could not download the video."]
      ∧ ((process_url env url chat_id now fs0).replies.filter
          isFailureReply).length = 1 := by
  have hb := processBody_video_fail env (mkVideo url chat_id now)
    (mkAudio url chat_id now) fs0 h
  refine ⟨?_, ?_, ?_, ?_⟩
  · simp [process_url, hb]
  · simp [process_url, hb]
  · simp [process_url, hb]
  · have hr : (process_url env url chat_id now fs0).replies
        = ["🔎 Fetching video info and downloading...",
           "❌ Could not download the video."] := by simp [process_url, hb]
    rw [hr]
    rfl

/-- An environment with a failing video download. -/
def envVideoFail : Env := { envAllFail with videoDownloadOk := false }

/-- Witness for C7 at a concrete environment. -/
theorem c7_witness :
    envVideoFail.videoDownloadOk = false
      ∧ ((process_url envVideoFail "u" 1 0 []).llmOps = []
        ∧ (process_url envVideoFail "u" 1 0 []).sends = []
        ∧ (process_url envVideoFail "u" 1 0 []).replies
            = ["🔎 Fetching video info and downloading...",
               "❌ Could not download the video."]
        ∧ ((process_url envVideoFail "u" 1 0 []).replies.filter
            isFailureReply).length = 1) :=
  ⟨rfl, c7_video_download_fail envVideoFail "u" 1 0 [] rfl⟩

/- ### C1: all AI calls failing -/

/-- Counterexample to C1: in an environment where the video download
succeeds with a non-empty description and every Gemini call fails, the run
delivers nothing at all — the original description is not returned as the
final recipe text; the pipeline hard-fails at the refine stage instead. -/
theorem c1_counterexample :
    (process_url envAllFail "https://instagram.com/reel/x" 1 0 []).sends = []
      ∧ (process_url envAllFail "https://instagram.com/reel/x" 1 0 []).finalRecipe = none
      ∧ (process_url envAllFail "https://instagram.com/reel/x" 1 0 []).replies
          = ["🔎 Fetching video info and downloading...",
             "✨ Refining, converting, and analyzing audio...",
             "❌ An error occurred while refining the recipe."] :=
  ⟨rfl, rfl, rfl⟩

/-- C1 as amended: with every language-model call failing, two runs on the
same URL both behave identically, and both end with the refine-stage
failure reply, delivering no recipe text at all (there is no fallback to
the raw description, because the refine stage is a hard failure). -/
theorem c1_amended (env : Env) (url : String) (chat_id : Int)
    (now now2 : Nat) (fs0 : FileSys)
    (hvid : env.videoDownloadOk = true)
    (hdesc : truthy env.videoDescription = true)
    (hg : ∀ p, env.generate p = none) :
    (process_url env url chat_id now fs0).replies
        = ["🔎 Fetching video info and downloading...",
           "✨ Refining, converting, and analyzing audio...",
           "❌ An error occurred while refining the recipe."]
      ∧ (process_url env url chat_id now2 fs0).replies
          = (process_url env url chat_id now fs0).replies
      ∧ (process_url env url chat_id now fs0).sends = []
      ∧ (process_url env url chat_id now2 fs0).sends = []
      ∧ (process_url env url chat_id now fs0).finalRecipe = none
      ∧ (process_url env url chat_id now2 fs0).finalRecipe = none := by
  have href := refine_none_of_generate_none env (env.videoDescription.getD "") hg
  have hb := processBody_refine_fail env (mkVideo url chat_id now)
    (mkAudio url chat_id now) fs0 hvid hdesc href
  have hb2 := processBody_refine_fail env (mkVideo url chat_id now2)
    (mkAudio url chat_id now2) fs0 hvid hdesc href
  refine ⟨?_, ?_, ?_, ?_, ?_, ?_⟩ <;> simp [process_url, hb, hb2]

/-- Witness for the amended C1 at a concrete environment. -/
theorem c1_witness :
    envAllFail.videoDownloadOk = true
      ∧ truthy envAllFail.videoDescription = true
      ∧ ((process_url envAllFail "u" 1 0 []).replies
            = ["🔎 Fetching video info and downloading...",
               "✨ Refining, converting, and analyzing audio...",
               "❌ An error occurred while refining the recipe."]
        ∧ (process_url envAllFail "u" 1 7 []).replies
            = (process_url envAllFail "u" 1 0 []).replies
        ∧ (process_url envAllFail "u" 1 0 []).sends = []
        ∧ (process_url envAllFail "u" 1 7 []).sends = []
        ∧ (process_url envAllFail "u" 1 0 []).finalRecipe = none
        ∧ (process_url envAllFail "u" 1 7 []).finalRecipe = none) :=
  ⟨rfl, rfl, c1_amended envAllFail "u" 1 0 7 [] rfl rfl (fun _ => rfl)⟩

/- ### Audio-failure lemmas and C6 -/

lemma audio_beq_video_false (url : String) (c : Int) (n : Nat) :
    ((mkAudio url c n).filepath == (mkVideo url c n).filepath) = false := by
  apply beq_eq_false_iff_ne.mpr
  intro h
  have h2 : (mkAudio url c n).filepath.data.head?
      = (mkVideo url c n).filepath.data.head? := by rw [h]
  have ha : (mkAudio url c n).filepath.data.head? = some 'a' := rfl
  have hv : (mkVideo url c n).filepath.data.head? = some 'v' := rfl
  rw [ha, hv] at h2
  exact absurd h2 (by decide)

lemma download_audio_failed_raises (env : Env) (audio : Audio) (fs : FileSys)
    (h : env.audioRaises = true) :
    (download_audio env audio fs).2 = .failed := by
  simp [download_audio, h]

lemma download_audio_failed_nofile (env : Env) (audio : Audio) (fs : FileSys)
    (hw : env.audioFileWritten = false)
    (hfs : os_path_exists fs audio.filepath = false) :
    (download_audio env audio fs).2 = .failed := by
  cases hrr : env.audioRaises
  · simp [download_audio, hw, hrr, hfs]
  · simp [download_audio, hrr]

lemma os_path_exists_afterVideo_audio (env : Env) (url : String) (c : Int)
    (n : Nat) (fs0 : FileSys)
    (hfs0 : os_path_exists fs0 (mkAudio url c n).filepath = false) :
    os_path_exists
        (if env.videoFileWritten then (mkVideo url c n).filepath :: fs0 else fs0)
        (mkAudio url c n).filepath = false := by
  split
  · simp only [os_path_exists, List.contains_cons]
    rw [audio_beq_video_false]
    simpa [os_path_exists] using hfs0
  · exact hfs0

lemma assembleAndSend_finalRecipe (env : Env) (video : Video)
    (replies llmOps : List String) (final : String) (fs : FileSys) :
    (assembleAndSend env video replies llmOps final fs).finalRecipe
      = some final := by
  unfold assembleAndSend
  split
  · split
    · rfl
    · split <;> rfl
  · rfl

lemma assembleAndSend_llmOps (env : Env) (video : Video)
    (replies llmOps : List String) (final : String) (fs : FileSys) :
    (assembleAndSend env video replies llmOps final fs).llmOps = llmOps := by
  unfold assembleAndSend
  split
  · split
    · rfl
    · split <;> rfl
  · rfl

lemma assembleAndSend_replies (env : Env) (video : Video)
    (replies llmOps : List String) (final : String) (fs : FileSys) :
    (assembleAndSend env video replies llmOps final fs).replies = replies := by
  unfold assembleAndSend
  split
  · split
    · rfl
    · split <;> rfl
  · rfl

lemma process_url_finalRecipe (env : Env) (url : String) (chat_id : Int)
    (now : Nat) (fs0 : FileSys) :
    (process_url env url chat_id now fs0).finalRecipe
      = (processBody env (mkVideo url chat_id now) (mkAudio url chat_id now)
          fs0).finalRecipe := by
  simp [process_url]

lemma process_url_llmOps (env : Env) (url : String) (chat_id : Int)
    (now : Nat) (fs0 : FileSys) :
    (process_url env url chat_id now fs0).llmOps
      = (processBody env (mkVideo url chat_id now) (mkAudio url chat_id now)
          fs0).llmOps := by
  simp [process_url]

lemma process_url_sends (env : Env) (url : String) (chat_id : Int)
    (now : Nat) (fs0 : FileSys) :
    (process_url env url chat_id now fs0).sends
      = (processBody env (mkVideo url chat_id now) (mkAudio url chat_id now)
          fs0).sends := by
  simp [process_url]

lemma processBody_audio_fail (env : Env) (video : Video) (audio : Audio)
    (fs0 : FileSys) (d r : String)
    (hvid : env.videoDownloadOk = true)
    (hdesc : env.videoDescription = some d) (hd : d.isEmpty = false)
    (href : refine_with_gemini env d = some r) (hr : r.isEmpty = false)
    (haud : (download_audio env audio
      (if env.videoFileWritten then video.filepath :: fs0 else fs0)).2
        = .failed) :
    (processBody env video audio fs0).finalRecipe
        = some (pyOr (convert_recipe_to_metric env r) r)
      ∧ (processBody env video audio fs0).llmOps
        = ["refine_with_gemini", "convert_recipe_to_metric"] := by
  simp [processBody, download_video, audioStage, hvid, hdesc, truthy, hd, href,
    hr, haud, assembleAndSend_finalRecipe, assembleAndSend_llmOps]

lemma pyOr_isEmpty_false (x : Option String) (y : String)
    (hy : y.isEmpty = false) : (pyOr x y).isEmpty = false := by
  cases x with
  | none => simpa [pyOr] using hy
  | some s =>
    simp only [pyOr]
    split
    · exact hy
    · next hs => simpa using hs

/-- C6: when video download and description succeed, the refine stage
succeeds, and the audio download fails, the final recipe text equals the
metric-converted recipe, or the refined recipe when conversion failed,
and it is never absent or empty. -/
theorem c6_audio_fail_final (env : Env) (url : String) (chat_id : Int)
    (now : Nat) (fs0 : FileSys) (d r : String)
    (hvid : env.videoDownloadOk = true)
    (hdesc : env.videoDescription = some d) (hd : d.isEmpty = false)
    (href : refine_with_gemini env d = some r) (hr : r.isEmpty = false)
    (haud : env.audioRaises = true
      ∨ (env.audioFileWritten = false
          ∧ os_path_exists fs0 (mkAudio url chat_id now).filepath = false)) :
    ((process_url env url chat_id now fs0).finalRecipe
          = convert_recipe_to_metric env r
        ∨ (process_url env url chat_id now fs0).finalRecipe = some r)
      ∧ (process_url env url chat_id now fs0).finalRecipe
          = some (pyOr (convert_recipe_to_metric env r) r)
      ∧ (process_url env url chat_id now fs0).finalRecipe ≠ none
      ∧ ∀ s, (process_url env url chat_id now fs0).finalRecipe = some s →
          s.isEmpty = false := by
  have haudF : (download_audio env (mkAudio url chat_id now)
      (if env.videoFileWritten then (mkVideo url chat_id now).filepath :: fs0
        else fs0)).2 = .failed := by
    rcases haud with h | ⟨hw, hfs⟩
    · exact download_audio_failed_raises _ _ _ h
    · exact download_audio_failed_nofile _ _ _ hw
        (os_path_exists_afterVideo_audio env url chat_id now fs0 hfs)
  have hbody := processBody_audio_fail env (mkVideo url chat_id now)
    (mkAudio url chat_id now) fs0 d r hvid hdesc hd href hr haudF
  have hfin : (process_url env url chat_id now fs0).finalRecipe
      = some (pyOr (convert_recipe_to_metric env r) r) := by
    rw [process_url_finalRecipe, hbody.1]
  refine ⟨?_, hfin, by rw [hfin]; simp, ?_⟩
  · rcases hc : convert_recipe_to_metric env r with _ | s
    · right; rw [hfin, hc]; simp [pyOr]
    · by_cases hs : s.isEmpty = true
      · right; rw [hfin, hc]; simp [pyOr, hs]
      · left; rw [hfin, hc]; simp [pyOr, hs]
  · intro s hsome
    rw [hfin] at hsome
    have : s = pyOr (convert_recipe_to_metric env r) r := by
      exact (Option.some_injective _ hsome.symm)
    rw [this]
    exact pyOr_isEmpty_false _ _ hr

/-- An environment where every Gemini text call returns a fixed recipe and
the audio download raises. -/
def envW6 : Env := { envAllFail with generate := fun _ => some "metric recipe" }

/-- Witness for C6 at a concrete environment. -/
theorem c6_witness :
    envW6.audioRaises = true
      ∧ (((process_url envW6 "u" 1 0 []).finalRecipe
            = convert_recipe_to_metric envW6 "metric recipe"
          ∨ (process_url envW6 "u" 1 0 []).finalRecipe = some "metric recipe")
        ∧ (process_url envW6 "u" 1 0 []).finalRecipe
            = some (pyOr (convert_recipe_to_metric envW6 "metric recipe")
                "metric recipe")
        ∧ (process_url envW6 "u" 1 0 []).finalRecipe ≠ none
        ∧ ∀ s, (process_url envW6 "u" 1 0 []).finalRecipe = some s →
            s.isEmpty = false) :=
  ⟨rfl, c6_audio_fail_final envW6 "u" 1 0 [] "2 cups flour, 1 lb butter"
    "metric recipe" rfl rfl rfl rfl rfl (Or.inl rfl)⟩

/- ### C10: empty-string results are treated as failures -/

lemma download_audio_success_file (env : Env) (audio : Audio) (fs : FileSys)
    (hrr : env.audioRaises = false) (hw : env.audioFileWritten = true) :
    (download_audio env audio fs).2 = .success := by
  simp [download_audio, hrr, hw, os_path_exists, List.contains_cons]

lemma processBody_empty_results (env : Env) (video : Video) (audio : Audio)
    (fs0 : FileSys) (d r : String)
    (hvid : env.videoDownloadOk = true)
    (hdesc : env.videoDescription = some d) (hd : d.isEmpty = false)
    (href : refine_with_gemini env d = some r) (hr : r.isEmpty = false)
    (haudS : (download_audio env audio
      (if env.videoFileWritten then video.filepath :: fs0 else fs0)).2
        = .success)
    (hconv : convert_recipe_to_metric env r = some "")
    (hana : analyze_audio_with_gemini env audio.filepath = some "") :
    (processBody env video audio fs0).finalRecipe = some r
      ∧ (processBody env video audio fs0).llmOps
        = ["refine_with_gemini", "convert_recipe_to_metric",
           "analyze_audio_with_gemini"] := by
  simp [processBody, download_video, audioStage, hvid, hdesc, truthy, hd, href,
    hr, haudS, hconv, hana, pyOr, assembleAndSend_finalRecipe,
    assembleAndSend_llmOps, show ("" : String).isEmpty = true from rfl]

/-- C10: an empty-string conversion result falls back to the refined recipe
exactly like a failure, and an empty-string audio-notes result skips the
merge stage entirely. -/
theorem c10_empty_results (env : Env) (url : String) (chat_id : Int)
    (now : Nat) (fs0 : FileSys) (d r : String)
    (hvid : env.videoDownloadOk = true)
    (hdesc : env.videoDescription = some d) (hd : d.isEmpty = false)
    (href : refine_with_gemini env d = some r) (hr : r.isEmpty = false)
    (haudR : env.audioRaises = false) (haudW : env.audioFileWritten = true)
    (hconv : convert_recipe_to_metric env r = some "")
    (hana : analyze_audio_with_gemini env (mkAudio url chat_id now).filepath
      = some "") :
    (process_url env url chat_id now fs0).finalRecipe = some r
      ∧ (process_url env url chat_id now fs0).llmOps
          = ["refine_with_gemini", "convert_recipe_to_metric",
             "analyze_audio_with_gemini"]
      ∧ "combine_recipe_and_audio" ∉ (process_url env url chat_id now fs0).llmOps := by
  have haudS := download_audio_success_file env (mkAudio url chat_id now)
    (if env.videoFileWritten then (mkVideo url chat_id now).filepath :: fs0
      else fs0) haudR haudW
  have hb := processBody_empty_results env (mkVideo url chat_id now)
    (mkAudio url chat_id now) fs0 d r hvid hdesc hd href hr haudS hconv hana
  refine ⟨?_, ?_, ?_⟩
  · rw [process_url_finalRecipe, hb.1]
  · rw [process_url_llmOps, hb.2]
  · rw [process_url_llmOps, hb.2]
    decide

/-- An environment where refine returns a non-empty recipe while the
conversion and the audio analysis both return the empty string. -/
def envW10 : Env :=
  { envAllFail with
    generate := fun p =>
      if p == refinePrompt "2 cups flour, 1 lb butter" then some "r1"
      else some ""
    generateWithAudio := fun _ _ => some ""
    uploadRaises := false
    uploadFinalState := "ACTIVE"
    audioRaises := false
    audioFileWritten := true }

set_option maxRecDepth 8192 in
/-- Witness for C10 at a concrete environment. -/
theorem c10_witness :
    refine_with_gemini envW10 "2 cups flour, 1 lb butter" = some "r1"
      ∧ convert_recipe_to_metric envW10 "r1" = some ""
      ∧ analyze_audio_with_gemini envW10 (mkAudio "u" 1 0).filepath = some ""
      ∧ ((process_url envW10 "u" 1 0 []).finalRecipe = some "r1"
        ∧ (process_url envW10 "u" 1 0 []).llmOps
            = ["refine_with_gemini", "convert_recipe_to_metric",
               "analyze_audio_with_gemini"]
        ∧ "combine_recipe_and_audio" ∉ (process_url envW10 "u" 1 0 []).llmOps) :=
  ⟨rfl, rfl, rfl,
    c10_empty_results envW10 "u" 1 0 [] "2 cups flour, 1 lb butter" "r1"
      rfl rfl rfl rfl rfl rfl rfl rfl rfl⟩

/- ### C8: retry with the plain caption -/

lemma download_audio_fst (env : Env) (audio : Audio) (fs : FileSys) :
    (download_audio env audio fs).1
      = if env.audioFileWritten then audio.filepath :: fs else fs := by
  cases hw : env.audioFileWritten <;> cases hrr : env.audioRaises <;>
    simp [download_audio, hw, hrr] <;> split <;> rfl

lemma os_path_exists_cons_self (p : String) (fs : FileSys) :
    os_path_exists (p :: fs) p = true := by
  simp [os_path_exists, List.contains_cons]

lemma os_path_exists_cons_of_true (x p : String) (fs : FileSys)
    (h : os_path_exists fs p = true) : os_path_exists (x :: fs) p = true := by
  simp [os_path_exists, List.contains_cons] at h ⊢
  exact Or.inr h

lemma assembleAndSend_retry (env : Env) (video : Video)
    (replies llm : List String) (final : String) (fs : FileSys)
    (hex : os_path_exists fs video.filepath = true)
    (hfmt : env.sendFormattedOk = false) :
    (assembleAndSend env video replies llm final fs).sends
        = [{ chat_id := video.chat_id, startPos := 0
             caption := build_caption final, parse_mode := some "MarkdownV2"
             width := video.width, height := video.height
             duration := video.duration },
           { chat_id := video.chat_id, startPos := 0, caption := final
             parse_mode := none, width := video.width, height := video.height
             duration := video.duration }]
      ∧ (assembleAndSend env video replies llm final fs).raised
          = (if env.sendPlainOk then none else some env.sendError)
      ∧ (assembleAndSend env video replies llm final fs).replies = replies := by
  cases hp : env.sendPlainOk <;>
    refine ⟨?_, ?_, ?_⟩ <;> simp [assembleAndSend, hex, hfmt, hp]

lemma processBody_assemble (env : Env) (video : Video) (audio : Audio)
    (fs0 : FileSys) (d r : String)
    (hvid : env.videoDownloadOk = true)
    (hdesc : env.videoDescription = some d) (hd : d.isEmpty = false)
    (href : refine_with_gemini env d = some r) (hr : r.isEmpty = false) :
    processBody env video audio fs0 =
      assembleAndSend env
        { video with width := env.videoWidth, height := env.videoHeight
                     duration := env.videoDuration, description := some d }
        ["🔎 Fetching video info and downloading...",
         "✨ Refining, converting, and analyzing audio..."]
        (audioStage env audio ["refine_with_gemini", "convert_recipe_to_metric"]
          (pyOr (convert_recipe_to_metric env r) r)
          (download_audio env audio
            (if env.videoFileWritten then video.filepath :: fs0 else fs0)).2).1
        (audioStage env audio ["refine_with_gemini", "convert_recipe_to_metric"]
          (pyOr (convert_recipe_to_metric env r) r)
          (download_audio env audio
            (if env.videoFileWritten then video.filepath :: fs0 else fs0)).2).2
        (download_audio env audio
          (if env.videoFileWritten then video.filepath :: fs0 else fs0)).1 := by
  simp [processBody, download_video, hvid, hdesc, truthy, hd, href, hr]

/-- C8: when the formatted-caption delivery is rejected, exactly one retry
is made, with the raw unwrapped recipe text as caption and the file read
from position 0; a failure of the retry propagates to the unexpected-error
reply. -/
theorem c8_formatted_rejected_retry (env : Env) (url : String) (chat_id : Int)
    (now : Nat) (fs0 : FileSys) (d r : String)
    (hvid : env.videoDownloadOk = true)
    (hdesc : env.videoDescription = some d) (hd : d.isEmpty = false)
    (href : refine_with_gemini env d = some r) (hr : r.isEmpty = false)
    (hwritten : env.videoFileWritten = true)
    (hfmt : env.sendFormattedOk = false) :
    ∃ final,
      (process_url env url chat_id now fs0).finalRecipe = some final
        ∧ (process_url env url chat_id now fs0).sends
            = [{ chat_id := chat_id, startPos := 0
                 caption := build_caption final
                 parse_mode := some "MarkdownV2", width := env.videoWidth
                 height := env.videoHeight, duration := env.videoDuration },
               { chat_id := chat_id, startPos := 0, caption := final
                 parse_mode := none, width := env.videoWidth
                 height := env.videoHeight, duration := env.videoDuration }]
        ∧ (env.sendPlainOk = false →
            (process_url env url chat_id now fs0).replies
              = ["🔎 Fetching video info and downloading...",
                 "✨ Refining, converting, and analyzing audio...",
                 "An unexpected error occurred: " ++ env.sendError]) := by
  have hb := processBody_assemble env (mkVideo url chat_id now)
    (mkAudio url chat_id now) fs0 d r hvid hdesc hd href hr
  have hfsv : (if env.videoFileWritten then
        (mkVideo url chat_id now).filepath :: fs0 else fs0)
      = (mkVideo url chat_id now).filepath :: fs0 := by
    rw [hwritten]
    exact if_pos rfl
  have hex : os_path_exists
      ((download_audio env (mkAudio url chat_id now)
        (if env.videoFileWritten then (mkVideo url chat_id now).filepath :: fs0
          else fs0)).1)
      (mkVideo url chat_id now).filepath = true := by
    rw [download_audio_fst, hfsv]
    split
    · exact os_path_exists_cons_of_true _ _ _ (os_path_exists_cons_self _ _)
    · exact os_path_exists_cons_self _ _
  have hretry := assembleAndSend_retry env
    { url := (mkVideo url chat_id now).url
      chat_id := (mkVideo url chat_id now).chat_id
      filepath := (mkVideo url chat_id now).filepath
      width := env.videoWidth
      height := env.videoHeight
      duration := env.videoDuration
      description := some d
      vformat := (mkVideo url chat_id now).vformat }
    ["🔎 Fetching video info and downloading...",
     "✨ Refining, converting, and analyzing audio..."]
    (audioStage env (mkAudio url chat_id now)
      ["refine_with_gemini", "convert_recipe_to_metric"]
      (pyOr (convert_recipe_to_metric env r) r)
      (download_audio env (mkAudio url chat_id now)
        (if env.videoFileWritten then (mkVideo url chat_id now).filepath :: fs0
          else fs0)).2).1
    (audioStage env (mkAudio url chat_id now)
      ["refine_with_gemini", "convert_recipe_to_metric"]
      (pyOr (convert_recipe_to_metric env r) r)
      (download_audio env (mkAudio url chat_id now)
        (if env.videoFileWritten then (mkVideo url chat_id now).filepath :: fs0
          else fs0)).2).2
    (download_audio env (mkAudio url chat_id now)
      (if env.videoFileWritten then (mkVideo url chat_id now).filepath :: fs0
        else fs0)).1
    hex hfmt
  refine ⟨(audioStage env (mkAudio url chat_id now)
      ["refine_with_gemini", "convert_recipe_to_metric"]
      (pyOr (convert_recipe_to_metric env r) r)
      (download_audio env (mkAudio url chat_id now)
        (if env.videoFileWritten then (mkVideo url chat_id now).filepath :: fs0
          else fs0)).2).2, ?_, ?_, ?_⟩
  · rw [process_url_finalRecipe, hb, assembleAndSend_finalRecipe]
  · rw [process_url_sends, hb, hretry.1]
    simp [mkVideo]
  · intro hplain
    simp only [process_url]
    rw [hb, hretry.2.1, hretry.2.2, hplain]
    simp

/-- An environment where the refine stage succeeds, the audio download
raises, the video file exists at send time, and both send attempts fail. -/
def envW8 : Env :=
  { envW6 with
    sendFormattedOk := false
    sendPlainOk := false
    sendError := "HTTP 400: caption too weird" }

/-- Witness for C8 at a concrete environment. -/
theorem c8_witness :
    envW8.sendFormattedOk = false
      ∧ ∃ final,
        (process_url envW8 "u" 1 0 []).finalRecipe = some final
          ∧ (process_url envW8 "u" 1 0 []).sends
              = [{ chat_id := 1, startPos := 0
                   caption := build_caption final
                   parse_mode := some "MarkdownV2", width := envW8.videoWidth
                   height := envW8.videoHeight
                   duration := envW8.videoDuration },
                 { chat_id := 1, startPos := 0, caption := final
                   parse_mode := none, width := envW8.videoWidth
                   height := envW8.videoHeight
                   duration := envW8.videoDuration }]
          ∧ (envW8.sendPlainOk = false →
              (process_url envW8 "u" 1 0 []).replies
                = ["🔎 Fetching video info and downloading...",
                   "✨ Refining, converting, and analyzing audio...",
                   "An unexpected error occurred: " ++ envW8.sendError]) :=
  ⟨rfl,
    c8_formatted_rejected_retry envW8 "u" 1 0 [] "2 cups flour, 1 lb butter"
      "metric recipe" rfl rfl rfl rfl rfl rfl rfl⟩
